import Mathlib

/-!
# Shallow embedding of the ODP-Client core (src/odp/client.py, src/odp/exceptions.py)

The client's core is three pieces of Python:

* `odp/exceptions.py` — the exception hierarchy `ODPException` /
  `ODPClientError` / `ODPServerError` / `ODPAuthError`, each carrying an
  optional `status_code` and an `error_detail` defaulting to `str(args)`;
* `ODPClient.token` — a lazily cached OAuth2 client-credentials token fetch;
* `ODPClient._request` — the dispatcher that resolves the base URL, builds
  headers, performs the HTTP call and translates failures.

External effects (the token grant request and the HTTP transport) are made
explicit parameters: a `FetchOutcome` says what `fetch_token` would do, and a
`TransportOutcome` says what `requests.request` would do.  The mutable
`self._token` field becomes explicit state passing on `ClientState`.
-/

namespace ODP

/-- JSON values, modelling the parsed bodies produced by `r.json()` /
`requests`.  Numbers are modelled as integers; nothing in the client core
inspects numeric payloads. -/
inductive Json where
  | null : Json
  | bool : Bool → Json
  | num : Int → Json
  | str : String → Json
  | arr : List Json → Json
  | obj : List (String × Json) → Json

/-- The `error_detail` payload attached to an ODP exception: parsed JSON when
the response body is valid JSON, else raw text (`_request`, lines 487-490). -/
inductive ErrorDetail where
  | json : Json → ErrorDetail
  | text : String → ErrorDetail

/-- The four exception classes of `odp/exceptions.py`: `ODPException` (generic)
and its subclasses `ODPClientError`, `ODPServerError`, `ODPAuthError`. -/
inductive ExcKind where
  | generic : ExcKind
  | clientErr : ExcKind
  | serverErr : ExcKind
  | authErr : ExcKind
  deriving Repr, DecidableEq

/-- Python `repr` of a simple string (no embedded quotes, backslashes or
control characters), used by `str(args)` on a tuple of message strings.
`\x27` is the single-quote character. -/
def pyRepr (s : String) : String :=
  "\x27" ++ s ++ "\x27"

/-- Python `str(args)` for the positional-argument tuple of an exception,
with the arguments modelled as strings: `str(()) = "()"`,
`str((a,)) = "(repr a,)"`, and commas with spaces in between otherwise.
This is the default `error_detail` in `ODPException.__init__`. -/
def strOfArgs (args : List String) : String :=
  match args with
  | [] => "()"
  | [a] => "(" ++ pyRepr a ++ ",)"
  | _ => "(" ++ String.intercalate ", " (args.map pyRepr) ++ ")"

/-- An instance of `ODPException` (or a subclass, per `kind`):
`status_code = kwargs.pop('status_code', None)` and
`error_detail = kwargs.pop('error_detail', str(args))`. -/
structure ODPError where
  kind : ExcKind
  args : List String
  status_code : Option Nat
  error_detail : ErrorDetail

/-- `exc(*args, status_code=?, error_detail=?)` — builds an `ODPError`,
supplying the `ODPException.__init__` default `str(args)` for `error_detail`
when no explicit detail keyword is passed. -/
def mkODPError (kind : ExcKind) (args : List String) (statusCode : Option Nat)
    (errorDetail : Option ErrorDetail) : ODPError :=
  { kind := kind
    args := args
    status_code := statusCode
    error_detail := errorDetail.getD (ErrorDetail.text (strOfArgs args)) }

/-- The token dict returned by `OAuth2Session.fetch_token`; `_request` reads
`self.token['access_token']` and the remaining metadata is opaque. -/
structure Token where
  access_token : String
  extra : List (String × Json)

/-- The client configuration captured by `ODPClient.__init__` from the
environment and the constructor arguments.  `admin_url` comes from
`os.getenv('ODP_ADMIN_API')` and may be absent; `timeout` is seconds or
`None` for disabled. -/
structure Config where
  public_url : String
  admin_url : Option String
  auth_url : String
  client_id : String
  client_secret : String
  scope : String
  verify : Bool
  timeout : Option ℚ

/-- The mutable per-instance state: the `self._token` cache field,
`None` at construction. -/
structure ClientState where
  cachedToken : Option Token

/-- What `OAuth2Session.fetch_token` would do when actually invoked: return a
token, raise `OAuthError` (the auth protocol layer reporting failure), or
raise a `requests.RequestException` (transport failure); the error cases
carry the exception's `args`. -/
inductive FetchOutcome where
  | success : Token → FetchOutcome
  | oauthError : List String → FetchOutcome
  | transportFailure : List String → FetchOutcome

/-- An HTTP response as seen through the `requests` response object:
`jsonBody` is `some` exactly when `r.json()` succeeds (the body text is valid
JSON), `text` is `r.text`, and `errorArgs` are the `args` of the `HTTPError`
that `raise_for_status` raises for this response. -/
structure Response where
  status_code : Nat
  jsonBody : Option Json
  text : String
  errorArgs : List String

/-- What `requests.request` would do: either an HTTP exchange completes and
yields a `Response`, or a transport-level failure (DNS, connection, timeout —
a `requests.RequestException` other than `HTTPError`) occurs, carrying the
exception's `args`. -/
inductive TransportOutcome where
  | response : Response → TransportOutcome
  | transportFailure : List String → TransportOutcome

/-- `ODPClient.token` (lines 497-512): return the cached token if present;
otherwise perform the client-credentials grant, caching on success, raising
`ODPAuthError(..., status_code=403)` on `OAuthError` and
`ODPServerError(..., status_code=503)` on `requests.RequestException`.
Returns (grant request performed?, result, new state). -/
def tokenProp (st : ClientState) (fetch : FetchOutcome) :
    Bool × Except ODPError Token × ClientState :=
  match st.cachedToken with
  | some t => (false, Except.ok t, st)
  | none =>
    match fetch with
    | FetchOutcome.success t => (true, Except.ok t, { cachedToken := some t })
    | FetchOutcome.oauthError args =>
        (true, Except.error (mkODPError ExcKind.authErr args (some 403) none), st)
    | FetchOutcome.transportFailure args =>
        (true, Except.error (mkODPError ExcKind.serverErr args (some 503) none), st)

/-- Base-URL resolution at the top of `_request` (lines 451-456): the admin
URL is demanded when `admin_api` is set and rejected when falsy (`None` or
the empty string, per Python truthiness of `not (server_url := self.admin_url)`). -/
def resolveBaseUrl (cfg : Config) (adminApi : Bool) : Except ODPError String :=
  if adminApi then
    match cfg.admin_url with
    | none => Except.error (mkODPError ExcKind.generic ["ODP Admin API URL is required"] none none)
    | some u =>
        if u = "" then
          Except.error (mkODPError ExcKind.generic ["ODP Admin API URL is required"] none none)
        else Except.ok u
  else Except.ok cfg.public_url

/-- Header construction in `_request` (lines 458-463): always `Accept` and
`Authorization: Bearer` plus the access token; `Content-Type` only for POST
and PUT. -/
def buildHeaders (method : String) (accessToken : String) : List (String × String) :=
  [("Accept", "application/json"),
   ("Authorization", "Bearer " ++ accessToken)] ++
  (if method = "POST" ∨ method = "PUT" then [("Content-Type", "application/json")] else [])

/-- `requests.Response.raise_for_status` raises `HTTPError` exactly for
status codes in [400, 600). -/
def raisesForStatus (statusCode : Nat) : Bool :=
  decide (400 ≤ statusCode) && decide (statusCode < 600)

/-- The status-code classification in `_request`'s `except requests.HTTPError`
handler (lines 478-485): 403 is `ODPAuthError`, other 4xx `ODPClientError`,
5xx `ODPServerError`, anything else the generic `ODPException`. -/
def classifyStatus (statusCode : Nat) : ExcKind :=
  if statusCode = 403 then ExcKind.authErr
  else if 400 ≤ statusCode ∧ statusCode < 500 then ExcKind.clientErr
  else if 500 ≤ statusCode ∧ statusCode < 600 then ExcKind.serverErr
  else ExcKind.generic

/-- Error-detail extraction in the `HTTPError` handler (lines 487-490):
`e.response.json()` when the body parses as JSON, else `e.response.text`. -/
def errorDetailOf (r : Response) : ErrorDetail :=
  match r.jsonBody with
  | some j => ErrorDetail.json j
  | none => ErrorDetail.text r.text

/-- The keyword arguments `_request` hands to `requests.request`
(lines 466-473). -/
structure HttpRequest where
  method : String
  url : String
  params : Option (List (String × Json))
  jsonPayload : Option Json
  headers : List (String × String)
  verify : Bool
  timeout : Option ℚ

/-- Observable effects of one `_request` call: whether the token grant
request was performed, and the call handed to `requests.request` when
execution reached it. -/
structure RequestEffects where
  fetchAttempted : Bool
  httpCall : Option HttpRequest

/-- Outcome of one `_request` call: the parsed JSON body on success, an ODP
exception on any handled failure, or — on a non-error status whose body is
not valid JSON — the `ValueError` from `r.json()` that none of the handlers
in `_request` catch. -/
inductive DispatchResult where
  | ok : Json → DispatchResult
  | err : ODPError → DispatchResult
  | uncaughtJsonError : String → DispatchResult

/-- Whether a dispatch outcome is a success (`return r.json()`). -/
def DispatchResult.isOk : DispatchResult → Bool
  | DispatchResult.ok _ => true
  | _ => false

/-- `ODPClient._request` (lines 451-495).  Order of operations follows the
source: resolve the base URL, access `self.token` (which may fetch and may
raise — both happen before the `try` block, so token errors propagate as-is
and no HTTP call is made), build headers, call `requests.request`, then
either return `r.json()` for a non-error status or classify the `HTTPError`;
any other `requests.RequestException` becomes `ODPServerError(status_code=503)`. -/
def request (cfg : Config) (st : ClientState) (method endpoint : String)
    (adminApi : Bool) (params : Option (List (String × Json)))
    (jsonPayload : Option Json) (fetch : FetchOutcome)
    (transport : TransportOutcome) :
    DispatchResult × ClientState × RequestEffects :=
  match resolveBaseUrl cfg adminApi with
  | Except.error e => (DispatchResult.err e, st, ⟨false, none⟩)
  | Except.ok serverUrl =>
    match tokenProp st fetch with
    | (fetched, Except.error e, st') => (DispatchResult.err e, st', ⟨fetched, none⟩)
    | (fetched, Except.ok tok, st') =>
      let req : HttpRequest :=
        ⟨method, serverUrl ++ endpoint, params, jsonPayload,
         buildHeaders method tok.access_token, cfg.verify, cfg.timeout⟩
      match transport with
      | TransportOutcome.transportFailure args =>
          (DispatchResult.err (mkODPError ExcKind.serverErr args (some 503) none),
           st', ⟨fetched, some req⟩)
      | TransportOutcome.response r =>
          if raisesForStatus r.status_code then
            (DispatchResult.err
              (mkODPError (classifyStatus r.status_code) r.errorArgs
                (some r.status_code) (some (errorDetailOf r))),
             st', ⟨fetched, some req⟩)
          else
            match r.jsonBody with
            | some j => (DispatchResult.ok j, st', ⟨fetched, some req⟩)
            | none => (DispatchResult.uncaughtJsonError r.text, st', ⟨fetched, some req⟩)

/-- One endpoint-method invocation of `_request`, bundling the arguments
together with the behaviour of the two external effects. -/
structure Invocation where
  method : String
  endpoint : String
  adminApi : Bool
  params : Option (List (String × Json))
  jsonPayload : Option Json
  fetch : FetchOutcome
  transport : TransportOutcome

/-- Run one bundled invocation against a client state. -/
def runOne (cfg : Config) (st : ClientState) (inv : Invocation) :
    DispatchResult × ClientState × RequestEffects :=
  request cfg st inv.method inv.endpoint inv.adminApi inv.params inv.jsonPayload
    inv.fetch inv.transport

/-- Run a sequence of invocations against one client instance, threading the
token-cache state and collecting each call's result and effects. -/
def runRequests (cfg : Config) :
    ClientState → List Invocation → List (DispatchResult × RequestEffects) × ClientState
  | st, [] => ([], st)
  | st, inv :: rest =>
    (((runOne cfg st inv).1, (runOne cfg st inv).2.2) ::
        (runRequests cfg (runOne cfg st inv).2.1 rest).1,
      (runRequests cfg (runOne cfg st inv).2.1 rest).2)

/-- Number of calls in a trace that performed the token grant request. -/
def countFetched (outs : List (DispatchResult × RequestEffects)) : Nat :=
  outs.countP (fun out => out.2.fetchAttempted)

/-- Python truthiness of an optional string argument: `None` and `""` are
falsy, every other string truthy. -/
def truthy : Option String → Bool
  | none => false
  | some s => !s.isEmpty

/-- A call to `_request` as issued by an endpoint method (method, endpoint
path, admin flag). -/
structure EndpointCall where
  method : String
  endpoint : String
  adminApi : Bool

/-- `ODPClient.get_metadata_record` (lines 145-167): dispatch on the first
truthy one of `record_id`, `doi`, `sid`; with none of them truthy the
`if`/`elif` chain falls through and the method implicitly returns `None`. -/
def get_metadata_record (institution_key : String)
    (record_id doi sid : Option String) : Option EndpointCall :=
  if truthy record_id then
    some ⟨"GET", "/" ++ institution_key ++ "/metadata/" ++ record_id.getD "", false⟩
  else if truthy doi then
    some ⟨"GET", "/" ++ institution_key ++ "/metadata/doi/" ++ doi.getD "", false⟩
  else if truthy sid then
    some ⟨"GET", "/" ++ institution_key ++ "/metadata/sid/" ++ sid.getD "", false⟩
  else none

/-! Concrete fixtures used to evaluate the theorems at specific inputs. -/

/-- A configuration with no admin URL configured. -/
def cfgPub : Config :=
  ⟨"http://public.api", none, "http://auth.server", "client-id", "client-secret",
   "odp.read", true, some 5⟩

/-- A token as returned by a successful client-credentials grant. -/
def tok0 : Token := ⟨"tok-abc", []⟩

/-- A successful JSON response. -/
def r200 : Response := ⟨200, some (Json.obj [("id", Json.str "x1")]), "resp-text", []⟩

/-- A 403 response with a JSON error body. -/
def r403 : Response :=
  ⟨403, some (Json.obj [("detail", Json.str "forbidden")]), "forbidden-text",
   ["403 Client Error"]⟩

/-- A 404 response with a JSON error body. -/
def r404 : Response :=
  ⟨404, some (Json.obj [("detail", Json.str "not found")]), "not-found-text",
   ["404 Client Error"]⟩

/-- A plain GET invocation whose token fetch and HTTP exchange both succeed. -/
def invGet : Invocation :=
  ⟨"GET", "/inst/metadata/", false, none, none, FetchOutcome.success tok0,
   TransportOutcome.response r200⟩

/-- C1: for every HTTP response with status 403, `_request` fails with
`ODPAuthError` carrying `status_code = 403` and `error_detail` equal to the
response body — JSON-decoded when the body is valid JSON, the raw response
text otherwise. -/
theorem c1_http_403_gives_auth_error
    (cfg : Config) (st st' : ClientState) (m ep : String) (admin : Bool)
    (ps : Option (List (String × Json))) (body : Option Json)
    (fetch : FetchOutcome) (u : String) (b : Bool) (t : Token) (r : Response)
    (hurl : resolveBaseUrl cfg admin = Except.ok u)
    (htok : tokenProp st fetch = (b, Except.ok t, st'))
    (hstatus : r.status_code = 403) :
    (request cfg st m ep admin ps body fetch (TransportOutcome.response r)).1 =
      DispatchResult.err (mkODPError ExcKind.authErr r.errorArgs (some 403)
        (some (errorDetailOf r))) ∧
    (∀ j, r.jsonBody = some j → errorDetailOf r = ErrorDetail.json j) ∧
    (r.jsonBody = none → errorDetailOf r = ErrorDetail.text r.text) := by
  refine ⟨?_, ?_, ?_⟩
  · simp only [request, hurl, htok, hstatus]
    norm_num [raisesForStatus, classifyStatus]
  · intro j hj; simp [errorDetailOf, hj]
  · intro hj; simp [errorDetailOf, hj]

/-- C1 evaluated at a concrete 403 response with a JSON body. -/
theorem c1_http_403_gives_auth_error_witness :
    (request cfgPub ⟨none⟩ "GET" "/inst/metadata/" false none none
        (FetchOutcome.success tok0) (TransportOutcome.response r403)).1 =
      DispatchResult.err (mkODPError ExcKind.authErr r403.errorArgs (some 403)
        (some (errorDetailOf r403))) ∧
    (∀ j, r403.jsonBody = some j → errorDetailOf r403 = ErrorDetail.json j) ∧
    (r403.jsonBody = none → errorDetailOf r403 = ErrorDetail.text r403.text) :=
  c1_http_403_gives_auth_error cfgPub ⟨none⟩ ⟨some tok0⟩ "GET" "/inst/metadata/" false
    none none (FetchOutcome.success tok0) "http://public.api" true tok0 r403
    rfl rfl rfl

/-- C2: for a response status in [400,500) other than 403, `_request` fails
with `ODPClientError` carrying that status; for a status in [500,600) with
`ODPServerError` carrying that status; and the classifier of the `HTTPError`
handler maps every remaining status to the generic `ODPException` (through
`raise_for_status` such a status never actually raises, so that branch is
vacuous on the dispatch path). -/
theorem c2_status_range_classification
    (cfg : Config) (st st' : ClientState) (m ep : String) (admin : Bool)
    (ps : Option (List (String × Json))) (body : Option Json)
    (fetch : FetchOutcome) (u : String) (b : Bool) (t : Token) (r : Response)
    (hurl : resolveBaseUrl cfg admin = Except.ok u)
    (htok : tokenProp st fetch = (b, Except.ok t, st')) :
    (400 ≤ r.status_code → r.status_code < 500 → r.status_code ≠ 403 →
      (request cfg st m ep admin ps body fetch (TransportOutcome.response r)).1 =
        DispatchResult.err (mkODPError ExcKind.clientErr r.errorArgs
          (some r.status_code) (some (errorDetailOf r)))) ∧
    (500 ≤ r.status_code → r.status_code < 600 →
      (request cfg st m ep admin ps body fetch (TransportOutcome.response r)).1 =
        DispatchResult.err (mkODPError ExcKind.serverErr r.errorArgs
          (some r.status_code) (some (errorDetailOf r)))) ∧
    (∀ s : Nat, ¬(400 ≤ s ∧ s < 500) → ¬(500 ≤ s ∧ s < 600) →
      classifyStatus s = ExcKind.generic) := by
  refine ⟨?_, ?_, ?_⟩
  · intro h1 h2 h3
    have hr : raisesForStatus r.status_code = true := by
      simp only [raisesForStatus, Bool.and_eq_true, decide_eq_true_eq]
      omega
    have hc : classifyStatus r.status_code = ExcKind.clientErr := by
      unfold classifyStatus
      rw [if_neg h3, if_pos ⟨h1, h2⟩]
    simp only [request, hurl, htok]
    simp [hr, hc]
  · intro h1 h2
    have hr : raisesForStatus r.status_code = true := by
      simp only [raisesForStatus, Bool.and_eq_true, decide_eq_true_eq]
      omega
    have hc : classifyStatus r.status_code = ExcKind.serverErr := by
      unfold classifyStatus
      rw [if_neg (by omega : ¬r.status_code = 403), if_neg (by omega), if_pos ⟨h1, h2⟩]
    simp only [request, hurl, htok]
    simp [hr, hc]
  · intro s hs1 hs2
    unfold classifyStatus
    rw [if_neg (by omega : ¬s = 403), if_neg hs1, if_neg hs2]

/-- C2 evaluated at a concrete 404 response (mirroring the spec's 404
scenario) together with the concrete classifier facts. -/
theorem c2_status_range_classification_witness :
    (400 ≤ r404.status_code → r404.status_code < 500 → r404.status_code ≠ 403 →
      (request cfgPub ⟨none⟩ "GET" "/inst/metadata/" false none none
          (FetchOutcome.success tok0) (TransportOutcome.response r404)).1 =
        DispatchResult.err (mkODPError ExcKind.clientErr r404.errorArgs
          (some r404.status_code) (some (errorDetailOf r404)))) ∧
    (500 ≤ r404.status_code → r404.status_code < 600 →
      (request cfgPub ⟨none⟩ "GET" "/inst/metadata/" false none none
          (FetchOutcome.success tok0) (TransportOutcome.response r404)).1 =
        DispatchResult.err (mkODPError ExcKind.serverErr r404.errorArgs
          (some r404.status_code) (some (errorDetailOf r404)))) ∧
    (∀ s : Nat, ¬(400 ≤ s ∧ s < 500) → ¬(500 ≤ s ∧ s < 600) →
      classifyStatus s = ExcKind.generic) :=
  c2_status_range_classification cfgPub ⟨none⟩ ⟨some tok0⟩ "GET" "/inst/metadata/" false
    none none (FetchOutcome.success tok0) "http://public.api" true tok0 r404 rfl rfl

/-- C3: when no HTTP response is obtained, both `_request` and the token
fetch fail with `ODPServerError` whose `status_code` is fixed at 503
whatever the underlying exception was, and whose `error_detail` defaults to
`str(args)` of the underlying exception's own message arguments. -/
theorem c3_transport_failure_gives_server_error_503
    (cfg : Config) (st st' : ClientState) (m ep : String) (admin : Bool)
    (ps : Option (List (String × Json))) (body : Option Json)
    (fetch : FetchOutcome) (u : String) (b : Bool) (t : Token)
    (args args2 : List String)
    (hurl : resolveBaseUrl cfg admin = Except.ok u)
    (htok : tokenProp st fetch = (b, Except.ok t, st')) :
    (request cfg st m ep admin ps body fetch
        (TransportOutcome.transportFailure args)).1 =
      DispatchResult.err (mkODPError ExcKind.serverErr args (some 503) none) ∧
    (mkODPError ExcKind.serverErr args (some 503) none).error_detail =
      ErrorDetail.text (strOfArgs args) ∧
    (tokenProp ⟨none⟩ (FetchOutcome.transportFailure args2)).2.1 =
      Except.error (mkODPError ExcKind.serverErr args2 (some 503) none) := by
  refine ⟨?_, rfl, rfl⟩
  simp only [request, hurl, htok]

/-- C3 evaluated at concrete transport failures on both paths. -/
theorem c3_transport_failure_gives_server_error_503_witness :
    (request cfgPub ⟨none⟩ "GET" "/inst/metadata/" false none none
        (FetchOutcome.success tok0)
        (TransportOutcome.transportFailure ["connection timed out"])).1 =
      DispatchResult.err
        (mkODPError ExcKind.serverErr ["connection timed out"] (some 503) none) ∧
    (mkODPError ExcKind.serverErr ["connection timed out"] (some 503) none).error_detail =
      ErrorDetail.text (strOfArgs ["connection timed out"]) ∧
    (tokenProp ⟨none⟩ (FetchOutcome.transportFailure ["dns failure"])).2.1 =
      Except.error (mkODPError ExcKind.serverErr ["dns failure"] (some 503) none) :=
  c3_transport_failure_gives_server_error_503 cfgPub ⟨none⟩ ⟨some tok0⟩ "GET"
    "/inst/metadata/" false none none (FetchOutcome.success tok0) "http://public.api"
    true tok0 ["connection timed out"] ["dns failure"] rfl rfl

/-- C6: for every 2xx response whose body parses as JSON, `_request` returns
that parsed body unchanged, whatever its shape. -/
theorem c6_success_returns_parsed_body
    (cfg : Config) (st st' : ClientState) (m ep : String) (admin : Bool)
    (ps : Option (List (String × Json))) (body : Option Json)
    (fetch : FetchOutcome) (u : String) (b : Bool) (t : Token) (r : Response)
    (j : Json)
    (hurl : resolveBaseUrl cfg admin = Except.ok u)
    (htok : tokenProp st fetch = (b, Except.ok t, st'))
    (hlo : 200 ≤ r.status_code) (hhi : r.status_code < 300)
    (hj : r.jsonBody = some j) :
    (request cfg st m ep admin ps body fetch (TransportOutcome.response r)).1 =
      DispatchResult.ok j := by
  have hr : raisesForStatus r.status_code = false := by
    simp only [raisesForStatus, Bool.and_eq_false_iff, decide_eq_false_iff_not]
    omega
  simp only [request, hurl, htok]
  simp [hr, hj]

/-- C6 evaluated at a concrete 200 response carrying a JSON object. -/
theorem c6_success_returns_parsed_body_witness :
    (request cfgPub ⟨none⟩ "GET" "/inst/metadata/" false none none
        (FetchOutcome.success tok0) (TransportOutcome.response r200)).1 =
      DispatchResult.ok (Json.obj [("id", Json.str "x1")]) :=
  c6_success_returns_parsed_body cfgPub ⟨none⟩ ⟨some tok0⟩ "GET" "/inst/metadata/" false
    none none (FetchOutcome.success tok0) "http://public.api" true tok0 r200
    (Json.obj [("id", Json.str "x1")]) rfl rfl (by norm_num [r200]) (by norm_num [r200])
    rfl

/-- C7: invoking `_request` with `admin_api=True` while the admin URL is
unconfigured (`None` or empty) fails at once with the generic
`ODPException("ODP Admin API URL is required")`: the state is untouched, the
token grant is not attempted and no HTTP call is made. -/
theorem c7_admin_url_missing_immediate_generic_error
    (cfg : Config) (st : ClientState) (m ep : String)
    (ps : Option (List (String × Json))) (body : Option Json)
    (fetch : FetchOutcome) (tr : TransportOutcome)
    (h : cfg.admin_url = none ∨ cfg.admin_url = some "") :
    request cfg st m ep true ps body fetch tr =
      (DispatchResult.err
        (mkODPError ExcKind.generic ["ODP Admin API URL is required"] none none),
       st, ⟨false, none⟩) := by
  have hres : resolveBaseUrl cfg true =
      Except.error (mkODPError ExcKind.generic ["ODP Admin API URL is required"] none none) := by
    rcases h with h | h <;> simp [resolveBaseUrl, h]
  simp only [request, hres]

/-- C7 evaluated on the concrete admin-less configuration. -/
theorem c7_admin_url_missing_immediate_generic_error_witness :
    request cfgPub ⟨none⟩ "GET" "/institution/" true none none
        (FetchOutcome.success tok0) (TransportOutcome.response r200) =
      (DispatchResult.err
        (mkODPError ExcKind.generic ["ODP Admin API URL is required"] none none),
       ⟨none⟩, ⟨false, none⟩) :=
  c7_admin_url_missing_immediate_generic_error cfgPub ⟨none⟩ "GET" "/institution/"
    none none (FetchOutcome.success tok0) (TransportOutcome.response r200)
    (Or.inl rfl)

/-- C8: when the auth protocol layer reports an authorization failure
(`OAuthError`), the token fetch fails with `ODPAuthError` (the code supplies
`status_code=403`, consistent with the spec guaranteeing no particular
status code). -/
theorem c8_oauth_error_gives_auth_error (args : List String) :
    (tokenProp ⟨none⟩ (FetchOutcome.oauthError args)).2.1 =
      Except.error (mkODPError ExcKind.authErr args (some 403) none) ∧
    (mkODPError ExcKind.authErr args (some 403) none).kind = ExcKind.authErr :=
  ⟨rfl, rfl⟩

/-- C9: with `record_id`, `doi` and `sid` all absent (`None` or empty),
`get_metadata_record` falls through every branch, issues no request and
returns `None`. -/
theorem c9_get_metadata_record_no_selector_returns_none
    (ik : String) (rid doi sid : Option String)
    (h1 : truthy rid = false) (h2 : truthy doi = false) (h3 : truthy sid = false) :
    get_metadata_record ik rid doi sid = none := by
  simp [get_metadata_record, h1, h2, h3]

/-- C9 evaluated with `record_id = None`, `doi = ""`, `sid = None`. -/
theorem c9_get_metadata_record_no_selector_returns_none_witness :
    get_metadata_record "saeon" none (some "") none = none :=
  c9_get_metadata_record_no_selector_returns_none "saeon" none (some "") none
    rfl rfl rfl

/-- C5: the dispatched call carries exactly the headers built by `_request` —
`Accept: application/json`, `Authorization: Bearer` plus the access token,
and `Content-Type: application/json` precisely for POST and PUT — together
with the structured JSON body passed through unchanged. -/
theorem c5_headers_and_payload
    (cfg : Config) (st st' : ClientState) (m ep : String) (admin : Bool)
    (ps : Option (List (String × Json))) (body : Option Json)
    (fetch : FetchOutcome) (tr : TransportOutcome) (u : String) (b : Bool) (t : Token)
    (hurl : resolveBaseUrl cfg admin = Except.ok u)
    (htok : tokenProp st fetch = (b, Except.ok t, st')) :
    (request cfg st m ep admin ps body fetch tr).2.2.httpCall =
      some ⟨m, u ++ ep, ps, body, buildHeaders m t.access_token,
        cfg.verify, cfg.timeout⟩ ∧
    ("Accept", "application/json") ∈ buildHeaders m t.access_token ∧
    ("Authorization", "Bearer " ++ t.access_token) ∈ buildHeaders m t.access_token ∧
    (("Content-Type", "application/json") ∈ buildHeaders m t.access_token ↔
      (m = "POST" ∨ m = "PUT")) := by
  refine ⟨?_, ?_, ?_, ?_⟩
  · simp only [request, hurl, htok]
    cases tr with
    | transportFailure args => rfl
    | response r =>
      by_cases hr : raisesForStatus r.status_code = true
      · simp [hr]
      · rcases hj : r.jsonBody with _ | j <;> simp [hr, hj]
  · simp [buildHeaders]
  · simp [buildHeaders]
  · by_cases hm : m = "POST" ∨ m = "PUT"
    · simp [buildHeaders, hm]
    · simp [buildHeaders, hm]

/-- C5 evaluated at a concrete POST with JSON body `\x7b"a": 1\x7d`. -/
theorem c5_headers_and_payload_witness :
    (request cfgPub ⟨none⟩ "POST" "/inst/metadata/" false none
        (some (Json.obj [("a", Json.num 1)])) (FetchOutcome.success tok0)
        (TransportOutcome.response r200)).2.2.httpCall =
      some ⟨"POST", "http://public.api" ++ "/inst/metadata/", none,
        some (Json.obj [("a", Json.num 1)]),
        buildHeaders "POST" tok0.access_token, cfgPub.verify, cfgPub.timeout⟩ ∧
    ("Accept", "application/json") ∈ buildHeaders "POST" tok0.access_token ∧
    ("Authorization", "Bearer " ++ tok0.access_token) ∈
      buildHeaders "POST" tok0.access_token ∧
    (("Content-Type", "application/json") ∈ buildHeaders "POST" tok0.access_token ↔
      ("POST" = "POST" ∨ "POST" = "PUT")) :=
  c5_headers_and_payload cfgPub ⟨none⟩ ⟨some tok0⟩ "POST" "/inst/metadata/" false none
    (some (Json.obj [("a", Json.num 1)])) (FetchOutcome.success tok0)
    (TransportOutcome.response r200) "http://public.api" true tok0 rfl rfl

/-- A cached token satisfies a later `token` access without a fetch and
without touching the cache field. -/
theorem tokenProp_cached (t : Token) (f : FetchOutcome) :
    tokenProp ⟨some t⟩ f = (false, Except.ok t, ⟨some t⟩) := rfl

/-- From a cached state, one `_request` call never performs the grant
request and leaves the cache as it was. -/
theorem runOne_cached (cfg : Config) (t : Token) (inv : Invocation) :
    (runOne cfg ⟨some t⟩ inv).2.1 = ⟨some t⟩ ∧
    (runOne cfg ⟨some t⟩ inv).2.2.fetchAttempted = false := by
  obtain ⟨m, ep, admin, ps, body, fetch, tr⟩ := inv
  simp only [runOne, request, tokenProp_cached]
  rcases hres : resolveBaseUrl cfg admin with e | u
  · exact ⟨rfl, rfl⟩
  · rcases tr with r | args
    · by_cases hr : raisesForStatus r.status_code = true
      · simp [hr]
      · rcases hj : r.jsonBody with _ | j <;> simp [hr, hj]
    · exact ⟨rfl, rfl⟩

/-- Running any trace from a cached state performs no grant request at all
and leaves the cache unchanged. -/
theorem runRequests_cached (cfg : Config) (t : Token) (invs : List Invocation) :
    (runRequests cfg ⟨some t⟩ invs).2 = ⟨some t⟩ ∧
    ∀ out ∈ (runRequests cfg ⟨some t⟩ invs).1, out.2.fetchAttempted = false := by
  induction invs with
  | nil => exact ⟨rfl, by intro out h; cases h⟩
  | cons inv rest ih =>
    obtain ⟨hst, hfetch⟩ := runOne_cached cfg t inv
    refine ⟨?_, ?_⟩
    · simp only [runRequests, hst]
      exact ih.1
    · intro out hmem
      simp only [runRequests, hst, List.mem_cons] at hmem
      rcases hmem with rfl | hmem
      · exact hfetch
      · exact ih.2 out hmem

/-- A successful call from an empty cache must have performed the grant
request, succeeded, and cached the fetched token. -/
theorem runOne_fresh_ok (cfg : Config) (inv : Invocation)
    (h : (runOne cfg ⟨none⟩ inv).1.isOk = true) :
    (runOne cfg ⟨none⟩ inv).2.2.fetchAttempted = true ∧
    ∃ t, inv.fetch = FetchOutcome.success t ∧
      (runOne cfg ⟨none⟩ inv).2.1 = ⟨some t⟩ := by
  obtain ⟨m, ep, admin, ps, body, fetch, tr⟩ := inv
  simp only [runOne, request] at h ⊢
  rcases hres : resolveBaseUrl cfg admin with e | u <;> rw [hres] at h
  · simp [DispatchResult.isOk] at h
  · rcases fetch with t | args | args
    · refine ⟨?_, t, rfl, ?_⟩ <;>
      · rcases tr with r | args
        · by_cases hr : raisesForStatus r.status_code = true
          · simp [tokenProp, hr]
          · rcases hj : r.jsonBody with _ | j <;> simp [tokenProp, hr, hj]
        · rfl
    · simp [tokenProp, DispatchResult.isOk] at h
    · simp [tokenProp, DispatchResult.isOk] at h

/-- C4: over any nonempty sequence of successful requests on one fresh
client instance, the first call performs the grant request and caches the
token; the grant is performed exactly once in the whole trace; no later
call fetches; and the cache field still holds that same token at the end. -/
theorem c4_token_fetched_exactly_once
    (cfg : Config) (inv : Invocation) (invs : List Invocation)
    (hok : ∀ out ∈ (runRequests cfg ⟨none⟩ (inv :: invs)).1, out.1.isOk = true) :
    ∃ t, inv.fetch = FetchOutcome.success t ∧
      (runOne cfg ⟨none⟩ inv).2.2.fetchAttempted = true ∧
      (runOne cfg ⟨none⟩ inv).2.1 = ⟨some t⟩ ∧
      countFetched (runRequests cfg ⟨none⟩ (inv :: invs)).1 = 1 ∧
      (runRequests cfg ⟨none⟩ (inv :: invs)).2 = ⟨some t⟩ ∧
      ∀ out ∈ (runRequests cfg (runOne cfg ⟨none⟩ inv).2.1 invs).1,
        out.2.fetchAttempted = false := by
  have hfirst : (runOne cfg ⟨none⟩ inv).1.isOk = true :=
    hok ((runOne cfg ⟨none⟩ inv).1, (runOne cfg ⟨none⟩ inv).2.2)
      (by simp only [runRequests]; exact List.mem_cons_self _ _)
  obtain ⟨hfetch, t, hsucc, hst⟩ := runOne_fresh_ok cfg inv hfirst
  obtain ⟨hfin, hrest⟩ := runRequests_cached cfg t invs
  refine ⟨t, hsucc, hfetch, hst, ?_, ?_, ?_⟩
  · have h0 : ((runRequests cfg (⟨some t⟩ : ClientState) invs).1).countP
        (fun out => out.2.fetchAttempted) = 0 :=
      List.countP_eq_zero.mpr (fun out ho => by simp [hrest out ho])
    simp only [runRequests, countFetched, List.countP_cons, hst, hfetch, h0]
    simp
  · simp only [runRequests, hst]
    exact hfin
  · rw [hst]
    exact hrest

/-- C4 evaluated on a concrete pair of identical successful GET calls. -/
theorem c4_token_fetched_exactly_once_witness :
    ∃ t, invGet.fetch = FetchOutcome.success t ∧
      (runOne cfgPub ⟨none⟩ invGet).2.2.fetchAttempted = true ∧
      (runOne cfgPub ⟨none⟩ invGet).2.1 = ⟨some t⟩ ∧
      countFetched (runRequests cfgPub ⟨none⟩ (invGet :: [invGet])).1 = 1 ∧
      (runRequests cfgPub ⟨none⟩ (invGet :: [invGet])).2 = ⟨some t⟩ ∧
      ∀ out ∈ (runRequests cfgPub (runOne cfgPub ⟨none⟩ invGet).2.1 [invGet]).1,
        out.2.fetchAttempted = false :=
  c4_token_fetched_exactly_once cfgPub invGet [invGet] (by decide)

/-- C10: a failed token acquisition leaves the cache field unset, so the
next access attempts the client-credentials grant again; and the cache is
only ever mutated by a successful fetch. -/
theorem c10_failed_fetch_leaves_cache_unchanged
    (f g : FetchOutcome) (e : ODPError) (st : ClientState)
    (h : (tokenProp ⟨none⟩ f).2.1 = Except.error e) :
    (tokenProp ⟨none⟩ f).2.2 = ⟨none⟩ ∧
    (tokenProp ((tokenProp ⟨none⟩ f).2.2) g).1 = true ∧
    ((tokenProp st g).2.2 ≠ st → ∃ t, g = FetchOutcome.success t ∧
      st.cachedToken = none ∧ (tokenProp st g).2.2 = ⟨some t⟩) := by
  have h1 : (tokenProp (⟨none⟩ : ClientState) f).2.2 = (⟨none⟩ : ClientState) := by
    rcases f with t | args | args
    · simp [tokenProp] at h
    · rfl
    · rfl
  refine ⟨h1, ?_, ?_⟩
  · rw [h1]
    rcases g with t | args | args <;> rfl
  · intro hne
    obtain ⟨ost⟩ := st
    rcases ost with _ | t2
    · rcases g with t | args | args
      · exact ⟨t, rfl, rfl, rfl⟩
      · exact absurd rfl hne
      · exact absurd rfl hne
    · exact absurd rfl hne

/-- C10 evaluated at a concrete rejected grant followed by a successful one. -/
theorem c10_failed_fetch_leaves_cache_unchanged_witness :
    (tokenProp ⟨none⟩ (FetchOutcome.oauthError ["invalid client"])).2.2 = ⟨none⟩ ∧
    (tokenProp ((tokenProp ⟨none⟩ (FetchOutcome.oauthError ["invalid client"])).2.2)
        (FetchOutcome.success tok0)).1 = true ∧
    ((tokenProp ⟨none⟩ (FetchOutcome.success tok0)).2.2 ≠ (⟨none⟩ : ClientState) →
      ∃ t, FetchOutcome.success tok0 = FetchOutcome.success t ∧
        (⟨none⟩ : ClientState).cachedToken = none ∧
        (tokenProp ⟨none⟩ (FetchOutcome.success tok0)).2.2 = ⟨some t⟩) :=
  c10_failed_fetch_leaves_cache_unchanged (FetchOutcome.oauthError ["invalid client"])
    (FetchOutcome.success tok0)
    (mkODPError ExcKind.authErr ["invalid client"] (some 403) none) ⟨none⟩ rfl

end ODP
